import Mathlib

/-!
Verification of the carbon-emissions calculator (`src/streamlit_app.py`).

The calculator tab computes a linear emission estimate from a household
profile, selects recommendation strings by threshold rules, pads them from
a generic pool, and e-mails a narrative report.  Numeric inputs are
modelled as rationals (the Python floats here only ever hold small decimal
values and every claim is about the exact linear model), the household
size as an integer, and the categorical selectors as inductive types whose
constructors are the exact option strings of the form.
-/

namespace CarbonApp

/-- Diet selector: `st.selectbox("Diet type", ["veg", "nonveg", "vegan", "mixed"])`. -/
inductive Diet where
  | veg | nonveg | vegan | mixed
deriving DecidableEq

/-- Vehicle selector: `st.selectbox("Vehicle type", ["car", "bike", "bus", "train", "none"])`. -/
inductive Vehicle where
  | car | bike | bus | train | none
deriving DecidableEq

/-- Electricity-source selector: `["coal", "renewable", "mixed"]`. -/
inductive Source where
  | coal | renewable | mixed
deriving DecidableEq

/-- The Household Monthly Profile: the fields collected by the calculator
form (`tab_calc`).  `household` has form minimum 1, but the e-mail helper
re-reads it from a dict, so it is modelled as an unrestricted integer. -/
structure Profile where
  electricity : ℚ
  electricitySource : Source
  lpg : ℚ
  vehicle : Vehicle
  travel : ℚ
  efficiency : ℚ
  diet : Diet
  waste : ℚ
  household : ℤ
  renewable : ℚ

/-- Source: `energy_emission = electricity * 0.8` (line 354). -/
def energy_emission (p : Profile) : ℚ := p.electricity * 0.8

/-- Source: `transport_emission = travel * 0.12` (line 355). -/
def transport_emission (p : Profile) : ℚ := p.travel * 0.12

/-- Source: `waste_emission = waste * 0.4` (line 356). -/
def waste_emission (p : Profile) : ℚ := p.waste * 0.4

/-- Source: `diet_extra = 0; if diet == "mixed": diet_extra = 5; elif diet == "nonveg": diet_extra = 10` (lines 357-361). -/
def diet_extra (d : Diet) : ℚ :=
  if d = Diet.mixed then 5
  else if d = Diet.nonveg then 10
  else 0

/-- Source: `emission_value = energy_emission + transport_emission + waste_emission + diet_extra` (line 363). -/
def emission_value (p : Profile) : ℚ :=
  energy_emission p + transport_emission p + waste_emission p + diet_extra p.diet

/-! ## Recommendation selector (`tab_calc`, lines 367-437)

The Python code appends suggestion strings to one list, category block by
category block.  Each block is an `if`/`elif` chain that appends at most
one string, so the list is the concatenation of the five per-category
contributions, in the order the blocks appear: energy, transport, diet,
waste, renewable share. -/

/-- Energy "high usage" tip (code lines 371-374). -/
def s_energy_high : String :=
  "Your electricity use is quite high. Shift fully to LED bulbs, keep AC at 24–26°C, and unplug chargers/devices when not in use to reduce demand."

/-- Energy "moderate usage" tip (code lines 376-379). -/
def s_energy_moderate : String :=
  "Focus on home energy efficiency: use LED bulbs, switch off fans/lights when you leave the room, and run washing machines only with full loads."

/-- Transport "major source" tip (code lines 383-386). -/
def s_transport_major : String :=
  "Your private vehicle travel is a major source of emissions. Try carpooling, using public transport, and combining errands so you drive fewer kilometres."

/-- Transport "replace some trips" tip (code lines 388-390). -/
def s_transport_replace : String :=
  "Replace some short private vehicle trips with walking, cycling, or public transport to cut fuel use and emissions."

/-- Transport "keep it up" tip (code lines 392-394). -/
def s_transport_keep : String :=
  "You already use public transport. Keep it up, and consider walking or cycling for very short distances."

/-- Diet "reduce meat" tip (code lines 398-401). -/
def s_diet_meat : String :=
  "Your diet includes animal products. Reduce red meat and add more plant-based meals 2–3 days a week to lower food-related emissions."

/-- Diet "already climate-friendly" tip (code lines 403-405). -/
def s_diet_friendly : String :=
  "Your diet is already climate-friendly. Continue focusing on seasonal, local foods and avoid food waste."

/-- Waste "segregate/compost" tip (code lines 409-412). -/
def s_waste_segregate : String :=
  "You generate quite a lot of waste. Start segregating at source, compost kitchen scraps, and cut down on single-use plastics."

/-- Waste "reduce waste" tip (code lines 414-416). -/
def s_waste_reduce : String :=
  "Work on reducing waste by buying only what you need, reusing containers, and saying no to single-use plastics."

/-- Renewable-share tip (code lines 420-422). -/
def s_renewable_tip : String :=
  "Increase your share of renewable energy over time — explore rooftop solar or green power options if they are available in your area."

/-- The fixed generic pool (code lines 425-429), in source order. -/
def generic : List String :=
  ["Carry your own water bottle and cloth bag to avoid single-use plastics.",
   "Plant native trees or support local tree-planting drives.",
   "Review one habit each week (energy, travel, food, or waste) and try a small improvement."]

/-- Energy block: `if electricity > 250: ... elif electricity > 100: ...`. -/
def energySuggs (p : Profile) : List String :=
  if p.electricity > 250 then [s_energy_high]
  else if p.electricity > 100 then [s_energy_moderate]
  else []

/-- Transport block:
`if vehicle in ["car","bike"] and travel > 300 ... elif ... travel > 100 ... elif vehicle in ["bus","train"] ...`. -/
def transportSuggs (p : Profile) : List String :=
  if (p.vehicle = Vehicle.car ∨ p.vehicle = Vehicle.bike) ∧ p.travel > 300 then [s_transport_major]
  else if (p.vehicle = Vehicle.car ∨ p.vehicle = Vehicle.bike) ∧ p.travel > 100 then [s_transport_replace]
  else if p.vehicle = Vehicle.bus ∨ p.vehicle = Vehicle.train then [s_transport_keep]
  else []

/-- Diet block: `if diet in ["nonveg","mixed"] ... elif diet in ["veg","vegan"] ...`. -/
def dietSuggs (p : Profile) : List String :=
  if p.diet = Diet.nonveg ∨ p.diet = Diet.mixed then [s_diet_meat]
  else if p.diet = Diet.veg ∨ p.diet = Diet.vegan then [s_diet_friendly]
  else []

/-- Waste block: `if waste > 30: ... elif waste > 15: ...`. -/
def wasteSuggs (p : Profile) : List String :=
  if p.waste > 30 then [s_waste_segregate]
  else if p.waste > 15 then [s_waste_reduce]
  else []

/-- Renewable block: `if renewable < 20: ...`. -/
def renewableSuggs (p : Profile) : List String :=
  if p.renewable < 20 then [s_renewable_tip] else []

/-- The pre-padding suggestion list built by the five category blocks, in
their fixed source order. -/
def suggestions (p : Profile) : List String :=
  energySuggs p ++ transportSuggs p ++ dietSuggs p ++ wasteSuggs p ++ renewableSuggs p

/-- The padding loop:
`for g in generic: if len(suggestions) >= 3: break; suggestions.append(g)`. -/
def padLoop (acc : List String) : List String → List String
  | [] => acc
  | g :: gs => if 3 ≤ acc.length then acc else padLoop (acc ++ [g]) gs

/-- The suggestion list after generic padding. -/
def finalSuggestions (p : Profile) : List String := padLoop (suggestions p) generic

/-- Source: `email_suggestions = suggestions[:3]` (code line 435). -/
def email_suggestions (p : Profile) : List String := (finalSuggestions p).take 3

/-- Source: `top_suggestion = email_suggestions[0] if email_suggestions else "Reduce electricity use or avoid short solo car trips."` (code lines 436-437). -/
def top_suggestion (p : Profile) : String :=
  match email_suggestions p with
  | [] => "Reduce electricity use or avoid short solo car trips."
  | s :: _ => s

/-- The ten category tips in the fixed category order of the source. -/
def allTips : List String :=
  [s_energy_high, s_energy_moderate, s_transport_major, s_transport_replace,
   s_transport_keep, s_diet_meat, s_diet_friendly, s_waste_segregate,
   s_waste_reduce, s_renewable_tip]

/-! ## Narrative e-mail body (`build_personalised_body`, lines 27-171)

The narrative report classifies electricity and waste into three verbal
levels; only the branch conditions matter for the claims, so the levels
are embedded as an enumeration. -/

/-- Verbal usage level used by the narrative branches. -/
inductive UsageLevel where
  | high | moderate | low
deriving DecidableEq

/-- Waste branch of `build_personalised_body` (lines 145-150):
`if waste > 30: ... elif waste > 10: ... else: ...`. -/
def narrativeWasteLevel (waste : ℚ) : UsageLevel :=
  if waste > 30 then UsageLevel.high
  else if waste > 10 then UsageLevel.moderate
  else UsageLevel.low

/-- Electricity branch of `build_personalised_body` (lines 60-65):
`if electricity > 250: ... elif electricity > 100: ... else: ...`. -/
def narrativeElectricityLevel (e : ℚ) : UsageLevel :=
  if e > 250 then UsageLevel.high
  else if e > 100 then UsageLevel.moderate
  else UsageLevel.low

/-- Source: `per_capita = emission_value / max(household, 1)` in
`build_personalised_body` (line 42). -/
def per_capita (emission_val : ℚ) (household : ℤ) : ℚ :=
  emission_val / ((max household 1 : ℤ) : ℚ)

/-! ## Chat tab and Gemini call -/

/-- Python `str.strip()` on the string's character list (the source only
ever strips ASCII whitespace here). -/
def pyStrip (s : String) : String :=
  ⟨((s.data.dropWhile Char.isWhitespace).reverse.dropWhile Char.isWhitespace).reverse⟩

/-- Send handler of the chat tab (lines 487-493): when the stripped
question is non-empty, the stripped question is sent to `callApi`
(abstracting `call_gemini`) and the ("You", q)/("Bot", reply) pair is
appended to the history; otherwise only a warning is shown.  The returned
flag records whether the external call was made. -/
def sendHandler (callApi : String → String) (history : List (String × String)) (q : String) :
    List (String × String) × Bool :=
  if pyStrip q ≠ "" then
    (history ++ [("You", pyStrip q), ("Bot", callApi (pyStrip q))], true)
  else
    (history, false)

/-- Fixed reply of `call_gemini` when the key is missing (line 225). -/
def notConfiguredMsg : String := "Gemini API key not configured on server."

/-- The fixed system text prepended to the user message (lines 232-235;
Python adjacent string literals concatenate). -/
def promptPreamble : String :=
  "You are a friendly sustainability assistant for an Answer in 2–3 short sentences and more points if required, make it use friendly: "

/-- Truthiness of `not GEMINI_API_KEY`: the key is missing when the
environment variable is absent or the empty string. -/
def keyMissing : Option String → Bool
  | Option.none => true
  | Option.some s => s = ""

/-- Source: `call_gemini` (lines 223-263).  `net` abstracts the HTTP POST
on the full prompt; the flag records whether the network was contacted.
The missing-key branch returns the fixed message before any network
activity, and the function is total (it returns rather than raising). -/
def call_gemini (apiKey : Option String) (net : String → String) (userMessage : String) :
    String × Bool :=
  if keyMissing apiKey then (notConfiguredMsg, false)
  else (net (promptPreamble ++ userMessage), true)

/-! ## Concrete profiles used as witnesses -/

/-- The example profile of the spec: electricity=150, travel=300, waste=20,
diet="mixed" (remaining fields at their form defaults). -/
def exampleProfile : Profile :=
  { electricity := 150, electricitySource := Source.mixed, lpg := 10,
    vehicle := Vehicle.car, travel := 300, efficiency := 15,
    diet := Diet.mixed, waste := 20, household := 4, renewable := 30 }

/-- The all-rules-fire profile of the spec: electricity=300, vehicle=car,
travel=400, diet=nonveg, waste=40, renewable=10. -/
def allFireProfile : Profile :=
  { electricity := 300, electricitySource := Source.mixed, lpg := 10,
    vehicle := Vehicle.car, travel := 400, efficiency := 15,
    diet := Diet.nonveg, waste := 40, household := 4, renewable := 10 }

/-- A profile whose waste 12 lies in the divergence window (10, 15]. -/
def divergenceProfile : Profile :=
  { electricity := 150, electricitySource := Source.mixed, lpg := 10,
    vehicle := Vehicle.car, travel := 300, efficiency := 15,
    diet := Diet.mixed, waste := 12, household := 4, renewable := 30 }

/-! ## Helper lemmas about the selector -/

/-- The energy block only ever emits its two energy tips. -/
lemma energySuggs_subset (p : Profile) :
    ∀ s ∈ energySuggs p, s ∈ [s_energy_high, s_energy_moderate] := by
  unfold energySuggs; split_ifs <;> intro s hs <;> simp_all

/-- The transport block only ever emits its three transport tips. -/
lemma transportSuggs_subset (p : Profile) :
    ∀ s ∈ transportSuggs p, s ∈ [s_transport_major, s_transport_replace, s_transport_keep] := by
  unfold transportSuggs; split_ifs <;> intro s hs <;> simp_all

/-- The diet block only ever emits its two diet tips. -/
lemma dietSuggs_subset (p : Profile) :
    ∀ s ∈ dietSuggs p, s ∈ [s_diet_meat, s_diet_friendly] := by
  unfold dietSuggs; split_ifs <;> intro s hs <;> simp_all

/-- The waste block only ever emits its two waste tips. -/
lemma wasteSuggs_subset (p : Profile) :
    ∀ s ∈ wasteSuggs p, s ∈ [s_waste_segregate, s_waste_reduce] := by
  unfold wasteSuggs; split_ifs <;> intro s hs <;> simp_all

/-- The renewable block only ever emits the renewable tip. -/
lemma renewableSuggs_subset (p : Profile) :
    ∀ s ∈ renewableSuggs p, s ∈ [s_renewable_tip] := by
  unfold renewableSuggs; split_ifs <;> intro s hs <;> simp_all

lemma not_mem_energySuggs (p : Profile) (s : String)
    (hs : s ∉ [s_energy_high, s_energy_moderate]) : s ∉ energySuggs p :=
  fun h => hs (energySuggs_subset p s h)

lemma not_mem_transportSuggs (p : Profile) (s : String)
    (hs : s ∉ [s_transport_major, s_transport_replace, s_transport_keep]) :
    s ∉ transportSuggs p :=
  fun h => hs (transportSuggs_subset p s h)

lemma not_mem_dietSuggs (p : Profile) (s : String)
    (hs : s ∉ [s_diet_meat, s_diet_friendly]) : s ∉ dietSuggs p :=
  fun h => hs (dietSuggs_subset p s h)

lemma not_mem_wasteSuggs (p : Profile) (s : String)
    (hs : s ∉ [s_waste_segregate, s_waste_reduce]) : s ∉ wasteSuggs p :=
  fun h => hs (wasteSuggs_subset p s h)

lemma not_mem_renewableSuggs (p : Profile) (s : String)
    (hs : s ∉ [s_renewable_tip]) : s ∉ renewableSuggs p :=
  fun h => hs (renewableSuggs_subset p s h)

/-- Membership in the pre-padding list splits over the five blocks. -/
lemma mem_suggestions_iff (p : Profile) (s : String) :
    s ∈ suggestions p ↔
      s ∈ energySuggs p ∨ s ∈ transportSuggs p ∨ s ∈ dietSuggs p ∨
      s ∈ wasteSuggs p ∨ s ∈ renewableSuggs p := by
  simp [suggestions, List.mem_append, or_assoc]

/-- Private vehicles are not public vehicles. -/
lemma not_public_of_private (p : Profile)
    (h : p.vehicle = Vehicle.car ∨ p.vehicle = Vehicle.bike) :
    ¬(p.vehicle = Vehicle.bus ∨ p.vehicle = Vehicle.train) := by
  rcases h with h | h <;> rw [h] <;> decide

lemma mem_cat_energy_high (p : Profile) :
    s_energy_high ∈ energySuggs p ↔ 250 < p.electricity := by
  unfold energySuggs; split_ifs with h1 h2
  · exact iff_of_true (by simp) h1
  · exact iff_of_false (by decide) h1
  · exact iff_of_false (by simp) h1

lemma mem_cat_energy_moderate (p : Profile) :
    s_energy_moderate ∈ energySuggs p ↔ 100 < p.electricity ∧ p.electricity ≤ 250 := by
  unfold energySuggs; split_ifs with h1 h2
  · exact iff_of_false (by decide) (fun h => not_le.mpr h1 h.2)
  · exact iff_of_true (by simp) ⟨h2, not_lt.mp h1⟩
  · exact iff_of_false (by simp) (fun h => h2 h.1)

lemma mem_cat_transport_major (p : Profile) :
    s_transport_major ∈ transportSuggs p ↔
      (p.vehicle = Vehicle.car ∨ p.vehicle = Vehicle.bike) ∧ 300 < p.travel := by
  unfold transportSuggs; split_ifs with h1 h2 h3
  · exact iff_of_true (by simp) h1
  · exact iff_of_false (by decide) h1
  · exact iff_of_false (by decide) h1
  · exact iff_of_false (by simp) h1

lemma mem_cat_transport_replace (p : Profile) :
    s_transport_replace ∈ transportSuggs p ↔
      (p.vehicle = Vehicle.car ∨ p.vehicle = Vehicle.bike) ∧
        100 < p.travel ∧ p.travel ≤ 300 := by
  unfold transportSuggs; split_ifs with h1 h2 h3
  · exact iff_of_false (by decide) (fun h => not_le.mpr h1.2 h.2.2)
  · exact iff_of_true (by simp)
      ⟨h2.1, h2.2, not_lt.mp (fun hc => h1 ⟨h2.1, hc⟩)⟩
  · exact iff_of_false (by decide) (fun h => h2 ⟨h.1, h.2.1⟩)
  · exact iff_of_false (by simp) (fun h => h2 ⟨h.1, h.2.1⟩)

lemma mem_cat_transport_keep (p : Profile) :
    s_transport_keep ∈ transportSuggs p ↔
      (p.vehicle = Vehicle.bus ∨ p.vehicle = Vehicle.train) := by
  unfold transportSuggs; split_ifs with h1 h2 h3
  · exact iff_of_false (by decide) (not_public_of_private p h1.1)
  · exact iff_of_false (by decide) (not_public_of_private p h2.1)
  · exact iff_of_true (by simp) h3
  · exact iff_of_false (by simp) h3

lemma mem_cat_diet_meat (p : Profile) :
    s_diet_meat ∈ dietSuggs p ↔ (p.diet = Diet.nonveg ∨ p.diet = Diet.mixed) := by
  unfold dietSuggs; split_ifs with h1 h2
  · exact iff_of_true (by simp) h1
  · exact iff_of_false (by decide) h1
  · exact iff_of_false (by simp) h1

lemma mem_cat_diet_friendly (p : Profile) :
    s_diet_friendly ∈ dietSuggs p ↔ (p.diet = Diet.veg ∨ p.diet = Diet.vegan) := by
  unfold dietSuggs; split_ifs with h1 h2
  · refine iff_of_false (by decide) (fun h => ?_)
    rcases h1 with h1 | h1 <;> rcases h with h | h <;>
      exact absurd (h1.symm.trans h) (by decide)
  · exact iff_of_true (by simp) h2
  · exact iff_of_false (by simp) h2

lemma mem_cat_waste_segregate (p : Profile) :
    s_waste_segregate ∈ wasteSuggs p ↔ 30 < p.waste := by
  unfold wasteSuggs; split_ifs with h1 h2
  · exact iff_of_true (by simp) h1
  · exact iff_of_false (by decide) h1
  · exact iff_of_false (by simp) h1

lemma mem_cat_waste_reduce (p : Profile) :
    s_waste_reduce ∈ wasteSuggs p ↔ 15 < p.waste ∧ p.waste ≤ 30 := by
  unfold wasteSuggs; split_ifs with h1 h2
  · exact iff_of_false (by decide) (fun h => not_le.mpr h1 h.2)
  · exact iff_of_true (by simp) ⟨h2, not_lt.mp h1⟩
  · exact iff_of_false (by simp) (fun h => h2 h.1)

lemma mem_cat_renewable (p : Profile) :
    s_renewable_tip ∈ renewableSuggs p ↔ p.renewable < 20 := by
  unfold renewableSuggs; split_ifs with h1
  · exact iff_of_true (by simp) h1
  · exact iff_of_false (by simp) h1

lemma mem_sugg_energy_high (p : Profile) :
    s_energy_high ∈ suggestions p ↔ 250 < p.electricity := by
  rw [mem_suggestions_iff]
  simp [mem_cat_energy_high,
        not_mem_transportSuggs p s_energy_high (by decide),
        not_mem_dietSuggs p s_energy_high (by decide),
        not_mem_wasteSuggs p s_energy_high (by decide),
        not_mem_renewableSuggs p s_energy_high (by decide)]

lemma mem_sugg_energy_moderate (p : Profile) :
    s_energy_moderate ∈ suggestions p ↔ 100 < p.electricity ∧ p.electricity ≤ 250 := by
  rw [mem_suggestions_iff]
  simp [mem_cat_energy_moderate,
        not_mem_transportSuggs p s_energy_moderate (by decide),
        not_mem_dietSuggs p s_energy_moderate (by decide),
        not_mem_wasteSuggs p s_energy_moderate (by decide),
        not_mem_renewableSuggs p s_energy_moderate (by decide)]

lemma mem_sugg_transport_major (p : Profile) :
    s_transport_major ∈ suggestions p ↔
      (p.vehicle = Vehicle.car ∨ p.vehicle = Vehicle.bike) ∧ 300 < p.travel := by
  rw [mem_suggestions_iff]
  simp [mem_cat_transport_major,
        not_mem_energySuggs p s_transport_major (by decide),
        not_mem_dietSuggs p s_transport_major (by decide),
        not_mem_wasteSuggs p s_transport_major (by decide),
        not_mem_renewableSuggs p s_transport_major (by decide)]

lemma mem_sugg_transport_replace (p : Profile) :
    s_transport_replace ∈ suggestions p ↔
      (p.vehicle = Vehicle.car ∨ p.vehicle = Vehicle.bike) ∧
        100 < p.travel ∧ p.travel ≤ 300 := by
  rw [mem_suggestions_iff]
  simp [mem_cat_transport_replace,
        not_mem_energySuggs p s_transport_replace (by decide),
        not_mem_dietSuggs p s_transport_replace (by decide),
        not_mem_wasteSuggs p s_transport_replace (by decide),
        not_mem_renewableSuggs p s_transport_replace (by decide)]

lemma mem_sugg_transport_keep (p : Profile) :
    s_transport_keep ∈ suggestions p ↔
      (p.vehicle = Vehicle.bus ∨ p.vehicle = Vehicle.train) := by
  rw [mem_suggestions_iff]
  simp [mem_cat_transport_keep,
        not_mem_energySuggs p s_transport_keep (by decide),
        not_mem_dietSuggs p s_transport_keep (by decide),
        not_mem_wasteSuggs p s_transport_keep (by decide),
        not_mem_renewableSuggs p s_transport_keep (by decide)]

lemma mem_sugg_diet_meat (p : Profile) :
    s_diet_meat ∈ suggestions p ↔ (p.diet = Diet.nonveg ∨ p.diet = Diet.mixed) := by
  rw [mem_suggestions_iff]
  simp [mem_cat_diet_meat,
        not_mem_energySuggs p s_diet_meat (by decide),
        not_mem_transportSuggs p s_diet_meat (by decide),
        not_mem_wasteSuggs p s_diet_meat (by decide),
        not_mem_renewableSuggs p s_diet_meat (by decide)]

lemma mem_sugg_diet_friendly (p : Profile) :
    s_diet_friendly ∈ suggestions p ↔ (p.diet = Diet.veg ∨ p.diet = Diet.vegan) := by
  rw [mem_suggestions_iff]
  simp [mem_cat_diet_friendly,
        not_mem_energySuggs p s_diet_friendly (by decide),
        not_mem_transportSuggs p s_diet_friendly (by decide),
        not_mem_wasteSuggs p s_diet_friendly (by decide),
        not_mem_renewableSuggs p s_diet_friendly (by decide)]

lemma mem_sugg_waste_segregate (p : Profile) :
    s_waste_segregate ∈ suggestions p ↔ 30 < p.waste := by
  rw [mem_suggestions_iff]
  simp [mem_cat_waste_segregate,
        not_mem_energySuggs p s_waste_segregate (by decide),
        not_mem_transportSuggs p s_waste_segregate (by decide),
        not_mem_dietSuggs p s_waste_segregate (by decide),
        not_mem_renewableSuggs p s_waste_segregate (by decide)]

lemma mem_sugg_waste_reduce (p : Profile) :
    s_waste_reduce ∈ suggestions p ↔ 15 < p.waste ∧ p.waste ≤ 30 := by
  rw [mem_suggestions_iff]
  simp [mem_cat_waste_reduce,
        not_mem_energySuggs p s_waste_reduce (by decide),
        not_mem_transportSuggs p s_waste_reduce (by decide),
        not_mem_dietSuggs p s_waste_reduce (by decide),
        not_mem_renewableSuggs p s_waste_reduce (by decide)]

lemma mem_sugg_renewable (p : Profile) :
    s_renewable_tip ∈ suggestions p ↔ p.renewable < 20 := by
  rw [mem_suggestions_iff]
  simp [mem_cat_renewable,
        not_mem_energySuggs p s_renewable_tip (by decide),
        not_mem_transportSuggs p s_renewable_tip (by decide),
        not_mem_dietSuggs p s_renewable_tip (by decide),
        not_mem_wasteSuggs p s_renewable_tip (by decide)]

/-- The pre-padding list respects the fixed category order. -/
lemma suggestions_sublist (p : Profile) : List.Sublist (suggestions p) allTips := by
  have h1 : List.Sublist (energySuggs p) [s_energy_high, s_energy_moderate] := by
    unfold energySuggs; split_ifs <;> simp [List.singleton_sublist]
  have h2 : List.Sublist (transportSuggs p)
      [s_transport_major, s_transport_replace, s_transport_keep] := by
    unfold transportSuggs; split_ifs <;> simp [List.singleton_sublist]
  have h3 : List.Sublist (dietSuggs p) [s_diet_meat, s_diet_friendly] := by
    unfold dietSuggs; split_ifs <;> simp [List.singleton_sublist]
  have h4 : List.Sublist (wasteSuggs p) [s_waste_segregate, s_waste_reduce] := by
    unfold wasteSuggs; split_ifs <;> simp [List.singleton_sublist]
  have h5 : List.Sublist (renewableSuggs p) [s_renewable_tip] := by
    unfold renewableSuggs; split_ifs <;> simp [List.singleton_sublist]
  have h := (((h1.append h2).append h3).append h4).append h5
  simpa [suggestions, allTips] using h

/-- The ten category tips and the three generic strings are 13 distinct
strings. -/
lemma tips_generic_nodup : (allTips ++ generic).Nodup := by decide

lemma allTips_nodup : allTips.Nodup :=
  (List.nodup_append.mp tips_generic_nodup).1

lemma generic_nodup : generic.Nodup :=
  (List.nodup_append.mp tips_generic_nodup).2.1

lemma suggestions_nodup (p : Profile) : (suggestions p).Nodup :=
  allTips_nodup.sublist (suggestions_sublist p)

/-- The padding loop appends a through-prefix of the remaining pool until
length 3 is reached: closed form. -/
lemma padLoop_eq (gs : List String) :
    ∀ acc : List String, padLoop acc gs = acc ++ gs.take (3 - acc.length) := by
  induction gs with
  | nil => intro acc; simp [padLoop]
  | cons g gs ih =>
    intro acc
    unfold padLoop
    split_ifs with h
    · have h0 : 3 - acc.length = 0 := by omega
      simp [h0]
    · rw [ih (acc ++ [g])]
      have hlen : (acc ++ [g]).length = acc.length + 1 := by simp
      rw [hlen]
      have h1 : 3 - acc.length = (3 - (acc.length + 1)) + 1 := by omega
      rw [h1, List.take_succ_cons, List.append_assoc]
      rfl

/-- Closed form of the padded list. -/
lemma finalSuggestions_eq (p : Profile) :
    finalSuggestions p = suggestions p ++ generic.take (3 - (suggestions p).length) :=
  padLoop_eq generic (suggestions p)

/-- The padded list has length `max (pre-padding length) 3`. -/
lemma finalSuggestions_length (p : Profile) :
    (finalSuggestions p).length = max (suggestions p).length 3 := by
  rw [finalSuggestions_eq]
  have hg : generic.length = 3 := by decide
  simp only [List.length_append, List.length_take, hg]
  omega

lemma three_le_finalSuggestions_length (p : Profile) :
    3 ≤ (finalSuggestions p).length := by
  rw [finalSuggestions_length]; exact le_max_right _ _

lemma finalSuggestions_nodup (p : Profile) : (finalSuggestions p).Nodup := by
  rw [finalSuggestions_eq]
  refine List.Nodup.append (suggestions_nodup p)
    (generic_nodup.sublist (List.take_sublist _ _)) ?_
  intro a ha hb
  exact (List.nodup_append.mp tips_generic_nodup).2.2
    ((suggestions_sublist p).subset ha) (List.take_subset _ _ hb)

/-- C1: for every profile with non-negative electricity, travel and waste
(the diet type only ranges over veg/nonveg/vegan/mixed), the calculator
computes energy = 0.8×electricity, transport = 0.12×travel, waste emission
= 0.4×waste, diet_extra = 10 for nonveg, 5 for mixed and 0 for veg or
vegan (no other value possible), and the total is the exact sum of the
four components. -/
theorem calc_components_and_total (p : Profile)
    (he : 0 ≤ p.electricity) (ht : 0 ≤ p.travel) (hw : 0 ≤ p.waste) :
    energy_emission p = 0.8 * p.electricity ∧
    transport_emission p = 0.12 * p.travel ∧
    waste_emission p = 0.4 * p.waste ∧
    (diet_extra p.diet = 10 ↔ p.diet = Diet.nonveg) ∧
    (diet_extra p.diet = 5 ↔ p.diet = Diet.mixed) ∧
    (diet_extra p.diet = 0 ↔ (p.diet = Diet.veg ∨ p.diet = Diet.vegan)) ∧
    (diet_extra p.diet = 10 ∨ diet_extra p.diet = 5 ∨ diet_extra p.diet = 0) ∧
    emission_value p =
      energy_emission p + transport_emission p + waste_emission p + diet_extra p.diet := by
  refine ⟨mul_comm _ _, mul_comm _ _, mul_comm _ _, ?_, ?_, ?_, ?_, rfl⟩ <;>
    cases p.diet <;> simp [diet_extra]

/-- Witness for C1, at the spec's example: electricity=150, travel=300,
waste=20, diet="mixed" gives energy=120, transport=36, waste emission=8,
diet_extra=5 and total 169.00. -/
theorem calc_components_and_total_example :
    energy_emission exampleProfile = 120 ∧
    transport_emission exampleProfile = 36 ∧
    waste_emission exampleProfile = 8 ∧
    diet_extra exampleProfile.diet = 5 ∧
    emission_value exampleProfile = 169 := by
  have h := calc_components_and_total exampleProfile (by decide) (by decide) (by decide)
  refine ⟨?_, ?_, ?_, ?_, ?_⟩
  · rw [h.1]; norm_num [exampleProfile]
  · rw [h.2.1]; norm_num [exampleProfile]
  · rw [h.2.2.1]; norm_num [exampleProfile]
  · exact (h.2.2.2.2.1).mpr (by decide)
  · rw [h.2.2.2.2.2.2.2]
    norm_num [energy_emission, transport_emission, waste_emission, diet_extra, exampleProfile]

/-- C2: for every profile, the on-screen selector adds each category tip
exactly under the threshold-table conditions — energy high iff
electricity > 250, energy moderate iff 100 < electricity ≤ 250, transport
major iff private vehicle and travel > 300, transport replace iff private
vehicle and 100 < travel ≤ 300, transport keep-it-up iff bus or train,
reduce-meat iff nonveg or mixed, climate-friendly iff veg or vegan,
segregate-waste iff waste > 30, reduce-waste iff 15 < waste ≤ 30,
renewable iff renewable < 20 — and the resulting list respects the fixed
category order energy → transport → diet → waste → renewable share (it is
a sublist of the tips listed in that order). -/
theorem selector_threshold_table (p : Profile) :
    (s_energy_high ∈ suggestions p ↔ 250 < p.electricity) ∧
    (s_energy_moderate ∈ suggestions p ↔ 100 < p.electricity ∧ p.electricity ≤ 250) ∧
    (s_transport_major ∈ suggestions p ↔
      (p.vehicle = Vehicle.car ∨ p.vehicle = Vehicle.bike) ∧ 300 < p.travel) ∧
    (s_transport_replace ∈ suggestions p ↔
      (p.vehicle = Vehicle.car ∨ p.vehicle = Vehicle.bike) ∧
        100 < p.travel ∧ p.travel ≤ 300) ∧
    (s_transport_keep ∈ suggestions p ↔
      (p.vehicle = Vehicle.bus ∨ p.vehicle = Vehicle.train)) ∧
    (s_diet_meat ∈ suggestions p ↔ (p.diet = Diet.nonveg ∨ p.diet = Diet.mixed)) ∧
    (s_diet_friendly ∈ suggestions p ↔ (p.diet = Diet.veg ∨ p.diet = Diet.vegan)) ∧
    (s_waste_segregate ∈ suggestions p ↔ 30 < p.waste) ∧
    (s_waste_reduce ∈ suggestions p ↔ 15 < p.waste ∧ p.waste ≤ 30) ∧
    (s_renewable_tip ∈ suggestions p ↔ p.renewable < 20) ∧
    List.Sublist (suggestions p) allTips :=
  ⟨mem_sugg_energy_high p, mem_sugg_energy_moderate p, mem_sugg_transport_major p,
   mem_sugg_transport_replace p, mem_sugg_transport_keep p, mem_sugg_diet_meat p,
   mem_sugg_diet_friendly p, mem_sugg_waste_segregate p, mem_sugg_waste_reduce p,
   mem_sugg_renewable p, suggestions_sublist p⟩

/-- C3: for every profile, the padded suggestion list has length at least
3, contains no duplicate strings, and equals the fired rules followed by
the generic pool items taken in their fixed order until length 3 is
reached. -/
theorem padded_list_length_nodup (p : Profile) :
    3 ≤ (finalSuggestions p).length ∧
    (finalSuggestions p).Nodup ∧
    finalSuggestions p = suggestions p ++ generic.take (3 - (suggestions p).length) :=
  ⟨three_le_finalSuggestions_length p, finalSuggestions_nodup p, finalSuggestions_eq p⟩

/-- C4: on the profile electricity=300, vehicle=car, travel=400,
diet=nonveg, waste=40, renewable=10, all five category rules fire in the
fixed category order, and the first three of them are exactly the e-mail
suggestions `suggestions[:3]`. -/
theorem all_rules_fire_example :
    suggestions allFireProfile =
      [s_energy_high, s_transport_major, s_diet_meat, s_waste_segregate, s_renewable_tip] ∧
    email_suggestions allFireProfile =
      [s_energy_high, s_transport_major, s_diet_meat] := by
  constructor <;> decide

/-- C5: the e-mailed narrative and the on-screen selector use different
waste boundaries: for every waste value in (10, 15] the narrative
classifies the waste level as moderate while neither selector waste rule
fires; the electricity boundaries (250 high / 100 moderate) agree between
the two. -/
theorem waste_threshold_divergence (p : Profile)
    (h1 : 10 < p.waste) (h2 : p.waste ≤ 15) :
    (narrativeWasteLevel p.waste = UsageLevel.moderate ∧
     s_waste_segregate ∉ suggestions p ∧ s_waste_reduce ∉ suggestions p) ∧
    (∀ q : Profile,
      (narrativeElectricityLevel q.electricity = UsageLevel.high ↔
        s_energy_high ∈ suggestions q) ∧
      (narrativeElectricityLevel q.electricity = UsageLevel.moderate ↔
        s_energy_moderate ∈ suggestions q)) := by
  constructor
  · have hle : ¬(30 < p.waste) := not_lt.mpr (h2.trans (by norm_num))
    refine ⟨?_, ?_, ?_⟩
    · unfold narrativeWasteLevel
      rw [if_neg hle, if_pos h1]
    · rw [mem_sugg_waste_segregate]
      exact hle
    · rw [mem_sugg_waste_reduce]
      exact fun h => not_lt.mpr h2 h.1
  · intro q
    constructor
    · rw [mem_sugg_energy_high]
      unfold narrativeElectricityLevel
      split_ifs with ha hb
      · exact iff_of_true rfl ha
      · exact iff_of_false (by decide) ha
      · exact iff_of_false (by decide) ha
    · rw [mem_sugg_energy_moderate]
      unfold narrativeElectricityLevel
      split_ifs with ha hb
      · exact iff_of_false (by decide) (fun h => not_le.mpr ha h.2)
      · exact iff_of_true rfl ⟨hb, not_lt.mp ha⟩
      · exact iff_of_false (by decide) (fun h => hb h.1)

/-- Witness for C5, at waste = 12: the narrative says moderate while
neither on-screen waste rule fires. -/
theorem waste_threshold_divergence_witness :
    (10 : ℚ) < divergenceProfile.waste ∧ divergenceProfile.waste ≤ 15 ∧
    narrativeWasteLevel divergenceProfile.waste = UsageLevel.moderate ∧
    s_waste_segregate ∉ suggestions divergenceProfile ∧
    s_waste_reduce ∉ suggestions divergenceProfile := by
  have h := waste_threshold_divergence divergenceProfile (by decide) (by decide)
  exact ⟨by decide, by decide, h.1.1, h.1.2.1, h.1.2.2⟩

/-- C6: in `build_personalised_body`, the per-capita divisor is floored at
1 for every household value (including 0 and negatives), so the division
is never by zero and a non-negative total yields a non-negative per-capita
value. -/
theorem per_capita_floor_safe (emission_val : ℚ) (household : ℤ)
    (h : 0 ≤ emission_val) :
    1 ≤ max household 1 ∧ ((max household 1 : ℤ) : ℚ) ≠ 0 ∧
    0 ≤ per_capita emission_val household := by
  have h1 : (1:ℤ) ≤ max household 1 := le_max_right _ _
  have h2 : (0:ℚ) < ((max household 1 : ℤ) : ℚ) := by
    exact_mod_cast lt_of_lt_of_le Int.zero_lt_one h1
  exact ⟨h1, ne_of_gt h2, div_nonneg h h2.le⟩

/-- Witness for C6, at total 169 and household size 0. -/
theorem per_capita_floor_safe_witness :
    (0:ℚ) ≤ 169 ∧
    (1 ≤ max (0:ℤ) 1 ∧ ((max (0:ℤ) 1 : ℤ) : ℚ) ≠ 0 ∧ 0 ≤ per_capita 169 0) :=
  ⟨by norm_num, per_capita_floor_safe 169 0 (by norm_num)⟩

/-- C7: pressing Send with an empty or whitespace-only question leaves
the history unchanged and makes no external call; any other question is
sent stripped and appends exactly the ("You", q)/("Bot", reply) pair. -/
theorem chat_send_guard (callApi : String → String)
    (history : List (String × String)) (q : String) :
    (pyStrip q = "" → sendHandler callApi history q = (history, false)) ∧
    (pyStrip q ≠ "" →
      sendHandler callApi history q =
        (history ++ [("You", pyStrip q), ("Bot", callApi (pyStrip q))], true)) := by
  constructor <;> intro h <;> simp [sendHandler, h]

/-- Witness for C7: a whitespace-only question is rejected with the
history unchanged, and a padded question is stripped and appended. -/
theorem chat_send_guard_witness :
    sendHandler (fun s => s) [] "   " = ([], false) ∧
    sendHandler (fun s => s) [] " hi " = ([("You", "hi"), ("Bot", "hi")], true) := by
  refine ⟨(chat_send_guard (fun s => s) [] "   ").1 (by decide), ?_⟩
  have h := (chat_send_guard (fun s => s) [] " hi ").2 (by decide)
  rw [h]
  decide

/-- C8: with the API credential absent, `call_gemini` returns the fixed
not-configured string for every user message, without contacting the
network, and returns normally. -/
theorem missing_key_fixed_reply (net : String → String) (userMessage : String) :
    call_gemini Option.none net userMessage =
      ("Gemini API key not configured on server.", false) := by
  simp [call_gemini, keyMissing, notConfiguredMsg]

/-- C9: for every profile `email_suggestions = suggestions[:3]` has
exactly 3 elements and is never empty, so the guarded fallback string is
unreachable and the top suggestion is the first fired-or-padded
suggestion. -/
theorem email_list_exact_and_top (p : Profile) :
    (email_suggestions p).length = 3 ∧
    email_suggestions p ≠ [] ∧
    top_suggestion p = (finalSuggestions p).headI := by
  have h3 := three_le_finalSuggestions_length p
  have hlen : (email_suggestions p).length = 3 := by
    simp only [email_suggestions, List.length_take]
    exact min_eq_left h3
  refine ⟨hlen, ?_, ?_⟩
  · intro hnil; rw [hnil] at hlen; simp at hlen
  · obtain ⟨a, t, ht⟩ : ∃ a t, finalSuggestions p = a :: t := by
      cases hfs : finalSuggestions p with
      | nil => rw [hfs] at h3; simp at h3
      | cons a t => exact ⟨a, t, rfl⟩
    have hemail : email_suggestions p = a :: t.take 2 := by
      rw [email_suggestions, ht]; rfl
    simp [top_suggestion, hemail, ht]

/-- C10: for every profile, exactly one of the two diet rules fires, so
the pre-padding list is non-empty and at most two generic pool items are
appended. -/
theorem diet_dichotomy_min_fired (p : Profile) :
    ((s_diet_meat ∈ suggestions p) ↔ ¬(s_diet_friendly ∈ suggestions p)) ∧
    1 ≤ (suggestions p).length ∧
    (finalSuggestions p).length ≤ (suggestions p).length + 2 := by
  have hone : s_diet_meat ∈ suggestions p ∨ s_diet_friendly ∈ suggestions p := by
    rw [mem_sugg_diet_meat, mem_sugg_diet_friendly]
    cases h : p.diet <;> simp [h]
  have hlen : 1 ≤ (suggestions p).length := by
    rcases hone with h | h <;>
      exact List.length_pos.mpr (List.ne_nil_of_mem h)
  refine ⟨?_, hlen, ?_⟩
  · rw [mem_sugg_diet_meat, mem_sugg_diet_friendly]
    cases h : p.diet <;> simp [h]
  · rw [finalSuggestions_length]
    exact max_le (Nat.le_add_right _ _) (by omega)

end CarbonApp
